import Mathlib

/-!
Verification of the product-research backend (`app/` in the repository).

Shallow embedding of the components the specification's testable
properties talk about:
* `app/domain/product_entities.py` — result/item entities and statuses;
* `app/infra/llm/perplexity_response_parser.py` — batch response parser;
* `app/infra/llm/perplexity_research_coordinator.py` — `research_products`;
* `app/core/circuit_breaker.py` — circuit breaker state machine;
* `app/services/product_research_result_processor.py` — preview merge;
* `app/services/product_research_job_manager.py` and
  `app/services/research_service.py` — job cancellation;
* `app/api/v1/endpoints/websocket.py` — subscription handler.

Python dynamic values (JSON payloads, `dict` metadata) are embedded as
typed records and association lists; machine floats appearing in the
code (ratings, prices) take exact rational values; wall-clock time is an
explicit natural-number parameter.  Exceptions are modelled with
`Except` or, where the source catches them locally, by the fallback
value the `except` branch produces.
-/

namespace CP9

/-- Status enum of `app/domain/product_entities.py::ResearchStatus`.
Note the enum has no `COMPLETED`/`CANCELLED`/`COUPANG_PREVIEW` members. -/
inductive ResearchStatus
  | pending
  | processing
  | success
  | error
  | insufficient_sources
  | too_many_items
deriving DecidableEq, Repr

/-- A JSON-ish scalar stored in a Python `dict` used as metadata. -/
inductive MVal
  | s (v : String)
  | n (v : Int)
  | b (v : Bool)
deriving DecidableEq, Repr

/-- Python `dict` with scalar values, as an association list (first
binding of a key wins, mirroring unique dict keys). -/
abbrev Metadata := List (String × MVal)

/-- Key lookup, `d.get(k)` / `k in d`. -/
def metaLookup (m : Metadata) (k : String) : Option MVal :=
  match m with
  | [] => none
  | (k', v) :: rest => if k' = k then some v else metaLookup rest k

/-- Key assignment `d[k] = v` (overwrite in place, append if absent). -/
def metaSet (m : Metadata) (k : String) (v : MVal) : Metadata :=
  match m with
  | [] => [(k, v)]
  | (k', v') :: rest => if k' = k then (k, v) :: rest else (k', v') :: metaSet rest k v

/-- Constants from `app/core/constants.py` (env-var defaults). -/
def MAX_RESEARCH_BATCH_SIZE : Nat := 10

def MIN_SOURCES_REQUIRED : Nat := 3

def REQUIRED_REVIEW_FIELDS : List String := ["rating_avg", "review_count"]

def STATUS_TOO_MANY_ITEMS : String := "too_many_items"

def STATUS_INSUFFICIENT_SOURCES : String := "insufficient_sources"

def ERROR_TOO_MANY_ITEMS : String := "요청한 아이템 수가 최대 허용 개수를 초과했습니다."

/-- `ProductAttribute` dataclass: fields `name` and `value` only — it has
no `unit` field, which matters to `_parse_specifications`. -/
structure ProductAttribute where
  name : String
  value : String
deriving DecidableEq, Repr

/-- `ProductSpecs` dataclass. -/
structure ProductSpecs where
  main : List String := []
  attributes : List ProductAttribute := []
  size_or_weight : Option String := none
  options : List String := []
  included_items : List String := []
deriving DecidableEq, Repr

/-- `NotableReview` dataclass: fields `source`, `quote`, `url` only — it
has no `rating` field, which matters to `_parse_reviews`. -/
structure NotableReview where
  source : String
  quote : String
  url : Option String := none
deriving DecidableEq, Repr

/-- `ProductReviews` dataclass; `__post_init__` rejects `rating_avg`
outside `[0, 5]` and negative `review_count` with `ValueError`, so every
constructed value satisfies those bounds (checked at the use sites). -/
structure ProductReviews where
  rating_avg : ℚ := 0
  review_count : Int := 0
  summary_positive : List String := []
  summary_negative : List String := []
  notable_reviews : List NotableReview := []
deriving DecidableEq, Repr

/-- `ProductResearchItem` dataclass (input descriptor). -/
structure ProductResearchItem where
  product_name : String
  category : String
  price_exact : ℚ
  currency : String := "KRW"
  seller_or_store : Option String := none
  product_id : Option Int := none
  product_image : Option String := none
  product_url : Option String := none
  is_rocket : Option Bool := none
  is_free_shipping : Option Bool := none
  category_name : Option String := none
  keyword : Option String := none
  rank : Option Int := none
  metadata : Metadata := []
deriving DecidableEq, Repr

/-- `ProductResearchResult` dataclass.  The random `id` field and the
`captured_at` wall-clock default are abstracted (the `id` is never read
by the modelled code; `captured_at` defaults to an opaque empty string).
The Python class has no declared `metadata` field — call sites attach it
dynamically — so it is modelled as an always-present field defaulting to
the empty dict. -/
structure ProductResearchResult where
  product_name : String := ""
  brand : String := ""
  category : String := ""
  model_or_variant : String := ""
  price_exact : ℚ := 0
  currency : String := "KRW"
  seller_or_store : Option String := none
  deeplink_or_product_url : Option String := none
  coupang_price : Option ℚ := none
  specs : ProductSpecs := {}
  reviews : ProductReviews := {}
  sources : List String := []
  captured_at : String := ""
  status : ResearchStatus := .pending
  error_message : Option String := none
  missing_fields : List String := []
  suggested_queries : List String := []
  metadata : Metadata := []
deriving DecidableEq, Repr

/-- `ProductResearchResult.mark_success`. -/
def markSuccess (r : ProductResearchResult) : ProductResearchResult :=
  { r with status := .success, error_message := none,
           missing_fields := [], suggested_queries := [] }

/-- `ProductResearchResult.mark_error`. -/
def markError (r : ProductResearchResult) (err : String) : ProductResearchResult :=
  { r with status := .error, error_message := some err }

/-- `ProductResearchResult.mark_insufficient_sources`. -/
def markInsufficientSources (r : ProductResearchResult)
    (missing : List String) (suggested : List String) : ProductResearchResult :=
  { r with status := .insufficient_sources,
           missing_fields := missing, suggested_queries := suggested }

/-- `ProductResearchResult.is_valid`. -/
def isValidResult (r : ProductResearchResult) : Bool :=
  r.status = .success && 0 < r.reviews.rating_avg && 0 < r.reviews.review_count
    && MIN_SOURCES_REQUIRED ≤ r.sources.length

/-! ## Response parser (`perplexity_response_parser.py`)

The JSON payload decoded from the API response content is embedded as
typed data: an element of the response array is an `ItemData` record
whose fields are the keys the parser reads (`data.get(...)`), each
`Option`-valued when the source supplies a default. -/

/-- One entry of `notable_reviews` (a JSON object).  The parser passes a
`rating=` keyword to `NotableReview`, which has no such parameter, so
constructing any entry raises `TypeError`. -/
structure NotableData where
  source : Option String := none
  text : Option String := none
  quote : Option String := none
  source_url : Option String := none
  url : Option String := none
  rating : Option ℚ := none
deriving DecidableEq, Repr

/-- The `reviews` sub-object of a response element.  `rating_avg` and
`review_count` are numeric-or-absent (a non-numeric value would raise in
`float`/`int` and hit the same fallback as an out-of-range one). -/
structure ReviewsData where
  rating_avg : Option ℚ := none
  review_count : Option Int := none
  summary_positive : List String := []
  summary_negative : List String := []
  notable_reviews : List NotableData := []
deriving DecidableEq, Repr

/-- One entry of `specs.attributes` (a JSON object). -/
structure AttrData where
  name : Option String := none
  value : Option String := none
  unit : Option String := none
deriving DecidableEq, Repr

/-- The `specs` sub-object of a response element. -/
structure SpecsData where
  main : List String := []
  attributes : List AttrData := []
  size_or_weight : Option String := none
  options : List String := []
  included_items : List String := []
deriving DecidableEq, Repr

/-- A response-array element (JSON object), with exactly the keys
`_parse_single_result` and its helpers read. -/
structure ItemData where
  status : Option String := none
  missing_fields : Option (List String) := none
  suggested_queries : Option (List String) := none
  product_name : Option String := none
  category : Option String := none
  price_exact : Option ℚ := none
  currency : Option String := none
  brand : Option String := none
  model_or_variant : Option String := none
  seller_or_store : Option String := none
  deeplink_or_product_url : Option String := none
  coupang_price : Option ℚ := none
  captured_at : Option String := none
  specs : Option SpecsData := none
  reviews : Option ReviewsData := none
  sources : Option (List String) := none
deriving DecidableEq, Repr

/-- A decoded response-array element: either a JSON object (parsed per
item) or some other JSON value (`data.get` on it raises
`AttributeError`, aborting the whole batch into per-item errors). -/
inductive ElemData
  | obj (d : ItemData)
  | nonObj
deriving DecidableEq, Repr

/-- Whether an array element is a JSON object. -/
def ElemData.isObj : ElemData → Bool
  | .obj _ => true
  | .nonObj => false

/-- The object payload of an array element (`nonObj` never reaches a
parse because the guard in `parseBatchResponse` checks the processed
prefix first). -/
def ElemData.getObj : ElemData → ItemData
  | .obj d => d
  | .nonObj => {}

/-- Result of `_extract_json_from_content` on
`response_data[choices][0][message][content]`:
* `malformed` — `json.loads` failed (returns `None`);
* `scalar` — decoded to a non-dict non-list value (`enumerate` raises);
* `dict` — decoded to a JSON object with the given scalar entries;
* `arr` — decoded to a JSON array. -/
inductive PData
  | malformed
  | scalar
  | dict (entries : Metadata)
  | arr (elems : List ElemData)
deriving DecidableEq, Repr

/-- The raw API response handed to `parse_batch_response`: decoded
content plus the top-level `citations` list (`.get("citations", [])`).
A response missing the `choices`/`message` keys behaves like
`malformed` content (both end in the same per-item error fallback). -/
structure ResponseData where
  content : PData
  citations : List String := []
deriving DecidableEq, Repr

/-- `_parse_reviews` on `data.get("reviews", {})`.  A nonempty
`notable_reviews` list raises `TypeError` (unexpected `rating` keyword
of `NotableReview`), and an out-of-range rating or negative count
raises `ValueError` in `ProductReviews.__post_init__`; in both cases the
`except` branch falls back to default `ProductReviews()`.  The `if
reviews_data.get(...)` truthiness guard maps `0`/absent alike to `0`. -/
def parseReviewsValue (rd : ReviewsData) : ProductReviews :=
  if rd.notable_reviews ≠ [] then {}
  else
    let ra : ℚ := match rd.rating_avg with
      | some q => if q = 0 then 0 else q
      | none => 0
    let rc : Int := match rd.review_count with
      | some n => if n = 0 then 0 else n
      | none => 0
    if 0 ≤ ra ∧ ra ≤ 5 ∧ 0 ≤ rc then
      { rating_avg := ra, review_count := rc,
        summary_positive := rd.summary_positive,
        summary_negative := rd.summary_negative,
        notable_reviews := [] }
    else {}

/-- `_parse_specifications` on `data.get("specs", {})`.  Any attribute
object carrying both `name` and `value` is passed a `unit=` keyword that
`ProductAttribute` does not accept, raising `TypeError`; the `except`
branch then falls back to default `ProductSpecs()`.  Attribute objects
missing `name` or `value` are skipped. -/
def parseSpecsValue (sd : SpecsData) : ProductSpecs :=
  if sd.attributes.any (fun a => a.name.isSome && a.value.isSome) then {}
  else
    { main := sd.main, attributes := [],
      size_or_weight := sd.size_or_weight,
      options := sd.options, included_items := sd.included_items }

/-- `_validate_and_set_status`: `SUCCESS` iff the parsed reviews carry a
positive rating and a positive count; otherwise
`INSUFFICIENT_SOURCES` with the required review fields and two templated
re-query suggestions. -/
def validateAndSetStatus (r : ProductResearchResult) : ProductResearchResult :=
  if 0 < r.reviews.rating_avg ∧ 0 < r.reviews.review_count then markSuccess r
  else
    markInsufficientSources r REQUIRED_REVIEW_FIELDS
      [(r.brand ++ " " ++ r.model_or_variant ++ " 리뷰").trim,
       r.product_name ++ " 평점"]

/-- `_parse_single_result`. -/
def parseSingleResult (data : ItemData) (item : ProductResearchItem) :
    ProductResearchResult :=
  let base : ProductResearchResult :=
    { product_name := data.product_name.getD item.product_name,
      category := data.category.getD item.category,
      price_exact := data.price_exact.getD item.price_exact,
      currency := data.currency.getD item.currency }
  if data.status = some STATUS_INSUFFICIENT_SOURCES then
    markInsufficientSources base (data.missing_fields.getD REQUIRED_REVIEW_FIELDS)
      (data.suggested_queries.getD [])
  else
    validateAndSetStatus
      { base with
        brand := data.brand.getD "",
        model_or_variant := data.model_or_variant.getD "",
        seller_or_store := data.seller_or_store,
        deeplink_or_product_url := data.deeplink_or_product_url,
        coupang_price := data.coupang_price,
        captured_at := data.captured_at.getD base.captured_at,
        specs := parseSpecsValue (data.specs.getD {}),
        reviews := parseReviewsValue (data.reviews.getD {}),
        sources := data.sources.getD [] }

/-- `_create_error_result`. -/
def createErrorResult (item : ProductResearchItem) (err : String) :
    ProductResearchResult :=
  markError
    { product_name := item.product_name, category := item.category,
      price_exact := item.price_exact, currency := item.currency } err

/-- `_add_citations_to_results`, per result: a result holding fewer than
`MIN_SOURCES_REQUIRED` sources is extended with citations up to the
minimum.  (The source's early return on empty `citations` is the
special case of taking from an empty list.) -/
def addCitations (citations : List String) (r : ProductResearchResult) :
    ProductResearchResult :=
  if r.sources.length < MIN_SOURCES_REQUIRED then
    { r with sources := r.sources ++ citations.take (MIN_SOURCES_REQUIRED - r.sources.length) }
  else r

/-- `_is_error_response`: decoded content is a dict whose `status` entry
is one of the two recognised error statuses. -/
def dictErrorStatus (entries : Metadata) : Option String :=
  match metaLookup entries "status" with
  | some (.s v) =>
      if v = STATUS_TOO_MANY_ITEMS ∨ v = STATUS_INSUFFICIENT_SOURCES then some v
      else none
  | _ => none

/-- `_handle_error_response`: a single synthetic result carrying the
error dict as metadata. -/
def handleErrorResponse (entries : Metadata) : List ProductResearchResult :=
  if metaLookup entries "status" = some (.s STATUS_TOO_MANY_ITEMS) then
    [{ status := .too_many_items, error_message := some ERROR_TOO_MANY_ITEMS,
       metadata := entries }]
  else
    [{ status := .error,
       error_message := some ("API returned error: " ++ STATUS_INSUFFICIENT_SOURCES),
       metadata := entries }]

/-- `parse_batch_response`.  The per-element loop breaks once the index
reaches `len(items)`, so a decoded array is consumed positionally up to
the batch size (`zipWith`); a non-object element inside that prefix
raises and the whole batch degrades to per-item error results, as does
malformed or otherwise unusable content.  A non-error dict iterates its
keys: with no items (or no keys) the loop exits at once with `[]`,
otherwise the first key (a string) raises.  Exception message texts are
abbreviated. -/
def parseBatchResponse (resp : ResponseData) (items : List ProductResearchItem) :
    List ProductResearchResult :=
  match resp.content with
  | .malformed => items.map (fun it => createErrorResult it "Failed to parse API response")
  | .scalar => items.map (fun it => createErrorResult it "TypeError: object is not iterable")
  | .dict entries =>
      if (dictErrorStatus entries).isSome then handleErrorResponse entries
      else if entries = [] ∨ items = [] then []
      else items.map (fun it => createErrorResult it "AttributeError: str has no get")
  | .arr elems =>
      if (elems.take items.length).all ElemData.isObj then
        (List.zipWith (fun e it => parseSingleResult e.getObj it) elems items).map
          (addCitations resp.citations)
      else items.map (fun it => createErrorResult it "AttributeError: element has no get")

/-! ## Research coordinator (`perplexity_research_coordinator.py`) -/

/-- Which collaborators `research_products` touched.  The circuit
breaker lives inside the API client, so `api_invoked = false` implies
the breaker (and the outbound HTTP call) was not reached either. -/
structure CallTrace where
  builder_invoked : Bool
  api_invoked : Bool
deriving DecidableEq, Repr

/-- Environment of one `research_products` run: the outcome of
`api_client.call_api` (the single suspension point) — either a parsed
response dict or a raised exception (transport failure, timeout, or the
breaker's fail-fast error). -/
inductive ApiOutcome
  | ok (resp : ResponseData)
  | raised (msg : String)
deriving DecidableEq, Repr

/-- The synthetic oversized-batch result built inline by
`research_products`. -/
def tooManyItemsResult (received : Nat) : ProductResearchResult :=
  { status := .too_many_items, error_message := some ERROR_TOO_MANY_ITEMS,
    metadata := [("status", .s "too_many_items"),
                 ("max_allowed", .n (MAX_RESEARCH_BATCH_SIZE : Int)),
                 ("received", .n (received : Int))] }

/-- `research_products`: empty batch raises `ValueError`; an oversized
batch short-circuits into one synthetic `TOO_MANY_ITEMS` result without
touching builder/breaker/client; otherwise the query is built, the API
called once, and the response parsed — any exception inside the `try`
becomes one `ERROR` result per input item. -/
def researchProducts (items : List ProductResearchItem) (api : ApiOutcome) :
    Except String (List ProductResearchResult × CallTrace) :=
  if items = [] then .error "Items list cannot be empty"
  else if MAX_RESEARCH_BATCH_SIZE < items.length then
    .ok ([tooManyItemsResult items.length], ⟨false, false⟩)
  else
    match api with
    | .raised e =>
        .ok (items.map (fun it => createErrorResult it ("Research failed: " ++ e)),
             ⟨true, true⟩)
    | .ok resp => .ok (parseBatchResponse resp items, ⟨true, true⟩)

/-! ## Circuit breaker (`app/core/circuit_breaker.py`)

Wall-clock time is an explicit natural-number parameter (seconds); each
call is stamped with a single instant, and the measured duration (ms)
only feeds the slow-call classification.  Timestamp/window comparisons
are taken over `Int` exactly as the Python float arithmetic would
compare them. -/

/-- `CircuitState` (`OPEN` is spelled `opened`: `open` is reserved). -/
inductive CircuitState
  | closed
  | opened
  | halfOpen
deriving DecidableEq, Repr

/-- `CircuitBreakerConfig` with its dataclass defaults. -/
structure CircuitBreakerConfig where
  failure_threshold : Nat := 5
  success_threshold : Nat := 3
  timeout_seconds : Nat := 60
  max_failures_per_window : Nat := 10
  window_seconds : Nat := 300
  slow_call_threshold_ms : Nat := 5000
  error_rate_threshold : ℚ := 1/2
deriving DecidableEq, Repr

/-- One `(timestamp, success, duration_ms)` entry of `_call_history`. -/
structure CallRecord where
  timestamp : Nat
  success : Bool
  duration_ms : Nat
deriving DecidableEq, Repr

/-- The mutable fields of a `CircuitBreaker` instance, at their
constructor values by default. -/
structure CircuitBreakerState where
  state : CircuitState := .closed
  failure_count : Nat := 0
  success_count : Nat := 0
  last_failure_time : Nat := 0
  last_success_time : Nat := 0
  total_calls : Nat := 0
  total_failures : Nat := 0
  total_successes : Nat := 0
  call_history : List CallRecord := []
deriving DecidableEq, Repr

/-- Fresh breaker state (`CircuitBreaker.__init__`). -/
def initialBreakerState : CircuitBreakerState := {}

/-- Default configuration. -/
def defaultBreakerConfig : CircuitBreakerConfig := {}

/-- `_cleanup_old_calls`: drop history entries at or before
`now - window_seconds`. -/
def cleanupOldCalls (cfg : CircuitBreakerConfig) (now : Nat)
    (s : CircuitBreakerState) : CircuitBreakerState :=
  let kept := s.call_history.filter
    (fun c => (now : Int) - (cfg.window_seconds : Int) < (c.timestamp : Int))
  { s with call_history := kept }

/-- `_check_error_rate` (invoked only while CLOSED): with at least five
in-window samples, an error rate at or above the threshold together
with at least `max_failures_per_window` in-window failures opens the
circuit and overwrites the failure counter with the in-window failure
count. -/
def checkErrorRate (cfg : CircuitBreakerConfig) (now : Nat)
    (s : CircuitBreakerState) : CircuitBreakerState :=
  if s.call_history.length < 5 then s
  else
    let recent := s.call_history.filter
      (fun c => (now : Int) - (cfg.window_seconds : Int) < (c.timestamp : Int))
    if recent.length < 5 then s
    else
      let failures := (recent.filter (fun c => !c.success)).length
      if cfg.error_rate_threshold ≤ (failures : ℚ) / (recent.length : ℚ)
          ∧ cfg.max_failures_per_window ≤ failures then
        { s with state := .opened, failure_count := failures }
      else s

/-- `_record_success`. -/
def recordSuccess (cfg : CircuitBreakerConfig) (now : Nat) (durationMs : Nat)
    (s : CircuitBreakerState) : CircuitBreakerState :=
  let s := { s with total_calls := s.total_calls + 1,
                    total_successes := s.total_successes + 1,
                    last_success_time := now,
                    call_history := s.call_history ++ [⟨now, true, durationMs⟩] }
  if s.state = .halfOpen then
    let s := { s with success_count := s.success_count + 1 }
    if cfg.success_threshold ≤ s.success_count then
      { s with state := .closed, failure_count := 0 }
    else s
  else if s.state = .closed then
    { s with failure_count := s.failure_count - 1 }
  else s

/-- `_record_failure`. -/
def recordFailure (cfg : CircuitBreakerConfig) (now : Nat) (durationMs : Nat)
    (s : CircuitBreakerState) : CircuitBreakerState :=
  let s := { s with total_calls := s.total_calls + 1,
                    total_failures := s.total_failures + 1,
                    last_failure_time := now,
                    failure_count := s.failure_count + 1,
                    call_history := s.call_history ++ [⟨now, false, durationMs⟩] }
  if (s.state = .closed ∨ s.state = .halfOpen)
      ∧ cfg.failure_threshold ≤ s.failure_count then
    { s with state := .opened, success_count := 0 }
  else s

/-- Behaviour of the wrapped operation on this call: it returns after
`duration_ms`, or raises after `duration_ms`. -/
inductive OpBehavior
  | ok (durationMs : Nat)
  | err (durationMs : Nat)
deriving DecidableEq, Repr

/-- Observable outcome of `acall`: fail-fast rejection (wrapped
operation never invoked), normal return, or re-raised exception. -/
inductive CallResult
  | rejected (retryAfter : Nat)
  | returned
  | raisedErr
deriving DecidableEq, Repr

/-- Whether the outcome is the fail-fast rejection. -/
def CallResult.isRejected : CallResult → Bool
  | .rejected _ => true
  | _ => false

/-- Execution tail of `acall` once the breaker lets the call through:
run the operation, classify slow successes as failures, record. -/
def execWrapped (cfg : CircuitBreakerConfig) (now : Nat) (op : OpBehavior)
    (s : CircuitBreakerState) : CallResult × CircuitBreakerState :=
  match op with
  | .ok d =>
      if cfg.slow_call_threshold_ms < d then (.returned, recordFailure cfg now d s)
      else (.returned, recordSuccess cfg now d s)
  | .err d => (.raisedErr, recordFailure cfg now d s)

/-- `CircuitBreaker.acall` (identical in control flow to the sync
`call`): purge stale history, re-evaluate the error rate while CLOSED,
fail fast while OPEN before the timeout, move to HALF_OPEN after it,
then execute the wrapped operation and record its outcome. -/
def acall (cfg : CircuitBreakerConfig) (s₀ : CircuitBreakerState) (now : Nat)
    (op : OpBehavior) : CallResult × CircuitBreakerState :=
  let s := cleanupOldCalls cfg now s₀
  let s := if s.state = .closed then checkErrorRate cfg now s else s
  if s.state = .opened then
    if (cfg.timeout_seconds : Int) ≤ (now : Int) - (s.last_failure_time : Int) then
      execWrapped cfg now op { s with state := .halfOpen, success_count := 0 }
    else
      (.rejected ((s.last_failure_time + cfg.timeout_seconds) - now), s)
  else execWrapped cfg now op s

/-- Post-state of one `acall` (used to iterate call sequences). -/
def acallState (cfg : CircuitBreakerConfig) (now : Nat) (op : OpBehavior)
    (s : CircuitBreakerState) : CircuitBreakerState :=
  (acall cfg s now op).2

/-- `force_open` (operational control). -/
def forceOpen (now : Nat) (s : CircuitBreakerState) : CircuitBreakerState :=
  { s with state := .opened, last_failure_time := now }

/-- `reset` (operational control). -/
def resetBreaker (s : CircuitBreakerState) : CircuitBreakerState :=
  { s with state := .closed, failure_count := 0, success_count := 0,
           call_history := [] }

/-! ## Result merger (`product_research_result_processor.py`) -/

/-- Python truthiness of an optional string (`if x:`). -/
def truthyStr : Option String → Bool
  | some v => v ≠ ""
  | none => false

/-- `_merge_research_into_preview`: overwrite the researched fields on
the preview result, extend (append) its sources, keep partnership
metadata when `coupang_info` is present, otherwise adopt the research
result's metadata; error fields are copied only when truthy. -/
def mergeResearchIntoPreview (preview research : ProductResearchResult) :
    ProductResearchResult :=
  let p := { preview with
    brand := research.brand,
    model_or_variant := research.model_or_variant,
    specs := research.specs,
    reviews := research.reviews,
    sources := preview.sources ++ research.sources,
    status := research.status,
    captured_at := research.captured_at }
  let p :=
    if (metaLookup p.metadata "coupang_info").isSome then
      { p with metadata := metaSet p.metadata "research_completed" (.b true) }
    else { p with metadata := research.metadata }
  let p := if truthyStr research.error_message then
      { p with error_message := research.error_message } else p
  let p := if research.missing_fields ≠ [] then
      { p with missing_fields := research.missing_fields } else p
  if research.suggested_queries ≠ [] then
    { p with suggested_queries := research.suggested_queries } else p

/-! ## Job cancellation (`product_research_job_manager.py`,
`research_service.py`) -/

/-- The fields of `ProductResearchJob` that `cancel_job` reads or
writes (`error_message` is attached dynamically in Python; timestamps
are abstract instants). -/
structure PRJob where
  status : ResearchStatus := .pending
  metadata : Metadata := []
  completed_at : Option Nat := none
  error_message : Option String := none
deriving DecidableEq, Repr

/-- `ProductResearchJobManager.cancel_job` on the stored job (if any):
only a PROCESSING job is cancelled — it is moved to ERROR status (the
enum has no CANCELLED member) with a `cancelled` metadata flag, a
completion timestamp and a message; any other case returns `False` with
the job untouched. -/
def cancelJob (job : Option PRJob) (now : Nat) : Bool × Option PRJob :=
  match job with
  | none => (false, none)
  | some j =>
      if j.status ≠ .processing then (false, some j)
      else
        (true, some { j with
          status := .error,
          metadata := metaSet j.metadata "cancelled" (.b true),
          completed_at := some now,
          error_message := some "Job was cancelled by user" })

/-- Status enum of `app/domain/entities.py::JobStatus` (the second job
model, used by `ResearchService`). -/
inductive JobStatus
  | pending
  | processing
  | completed
  | failed
  | cancelled
deriving DecidableEq, Repr

/-- Outcome of `ResearchService.cancel_research_job`: returned boolean
or a raised `ValueError`. -/
inductive CancelOutcome
  | returnedFalse
  | cancelledOk
  | valueError (msg : String)
deriving DecidableEq, Repr

/-- `ResearchService.cancel_research_job` on the looked-up job: missing
job returns `False`; a PENDING/PROCESSING job is updated to CANCELLED
through the repository (modelled as succeeding); any other status
raises `ValueError`. -/
def cancelResearchJob (job : Option JobStatus) : CancelOutcome :=
  match job with
  | none => .returnedFalse
  | some st =>
      if st = .pending ∨ st = .processing then .cancelledOk
      else .valueError "cannot be cancelled"

/-! ## WebSocket subscription handler (`endpoints/websocket.py`)

The handler's environment is embedded as a record: the connecting
peer's live-connection count (computed from the manager's maps before
any other step), whether `UUID(job_id)` accepts the path parameter
(standard-library parse, abstracted to its verdict), the outcome of the
`get_job_by_id` lookup, and whether `connection_manager.connect`
accepts the socket. -/

structure WsRequest where
  current_ip_connections : Nat
  job_id_is_valid_uuid : Bool
  lookup_found : Option Bool := some true
  manager_accepts : Bool := true
deriving DecidableEq, Repr

/-- How the handler disposes of the socket before (or instead of)
entering its receive loop. -/
inductive WsOutcome
  | closedWith (code : Nat)
  | connected
  | droppedSilently
deriving DecidableEq, Repr

/-- What the handler touched: whether `get_job_by_id` ran and whether
the socket was registered with the connection manager. -/
structure WsTrace where
  lookup_invoked : Bool
  registered : Bool
deriving DecidableEq, Repr

/-- `websocket_research_updates` up to connection establishment: the
per-IP cap (≥ 5) closes with 4008 first; an invalid job-id closes with
4000 before any job lookup; a failing lookup closes with 4500, a
missing job with 4004; a manager refusal returns without closing.
`lookup_found = none` models the lookup raising. -/
def websocketResearchUpdates (req : WsRequest) : WsOutcome × WsTrace :=
  if 5 ≤ req.current_ip_connections then (.closedWith 4008, ⟨false, false⟩)
  else if !req.job_id_is_valid_uuid then (.closedWith 4000, ⟨false, false⟩)
  else
    match req.lookup_found with
    | none => (.closedWith 4500, ⟨true, false⟩)
    | some false => (.closedWith 4004, ⟨true, false⟩)
    | some true =>
        if req.manager_accepts then (.connected, ⟨true, true⟩)
        else (.droppedSilently, ⟨true, false⟩)

/-! ## Concrete instances used by counterexamples and witnesses -/

/-- A minimal research item. -/
def exItemA : ProductResearchItem :=
  { product_name := "A", category := "cat", price_exact := 100 }

/-- A second research item. -/
def exItemB : ProductResearchItem :=
  { product_name := "B", category := "cat", price_exact := 200 }

/-- The worked example item of the spec: name X, category Electronics,
price 1000. -/
def exItemX : ProductResearchItem :=
  { product_name := "X", category := "Electronics", price_exact := 1000 }

/-- The rational 4.5 in reduced form (`9/2`), given directly so that
kernel evaluation never has to normalise a fraction. -/
def q45 : ℚ := ⟨9, 2, by norm_num, by norm_num⟩

/-- A well-formed response element: rating 4.5, 50 reviews, three
sources. -/
def exDataPlain : ItemData :=
  { reviews := some { rating_avg := some q45, review_count := some 50 },
    sources := some ["s1", "s2", "s3"] }

/-- The spec's worked example as the API would have to report it under
the claim's reading: a 100-point rating of 90, 50 reviews, three
sources including a manufacturer domain. -/
def exData90 : ItemData :=
  { reviews := some { rating_avg := some 90, review_count := some 50 },
    sources := some ["https://www.samsung.com/galaxy",
                     "https://retailer.example/x",
                     "https://media.example/review"] }

/-- The same example already normalised to the 5-point scale (what the
prompt instructs the external API to return). -/
def exData45 : ItemData :=
  { reviews := some { rating_avg := some q45, review_count := some 50 },
    sources := some ["https://www.samsung.com/galaxy",
                     "https://retailer.example/x",
                     "https://media.example/review"] }

/-- A response element with healthy reviews but no sources at all. -/
def exDataNoSources : ItemData :=
  { reviews := some { rating_avg := some q45, review_count := some 50 } }

/-- A preview result as `_extract_coupang_info` builds it: one partner
source and `coupang_info` metadata. -/
def exPreview : ProductResearchResult :=
  { product_name := "A", seller_or_store := some "쿠팡",
    sources := ["쿠팡 파트너스 API"],
    metadata := [("coupang_info", .s "info"), ("preview", .b true)] }

/-- A full-research result carrying three sources. -/
def exResearch : ProductResearchResult :=
  { product_name := "A", brand := "BR", sources := ["s1", "s2", "s3"],
    status := .success }

/-- A full-research result carrying no sources. -/
def exResearchNoSources : ProductResearchResult :=
  { product_name := "A", brand := "BR", status := .insufficient_sources,
    missing_fields := ["rating_avg"] }

/-- `k` consecutive calls whose wrapped operation raises, all at instant
`t`, starting from a fresh breaker. -/
def failIter (cfg : CircuitBreakerConfig) (t k : Nat) : CircuitBreakerState :=
  (acallState cfg t (.err 0))^[k] initialBreakerState

/-! ## Claim C5 — oversized batch short-circuits -/

/-- C5: for every batch larger than `MAX_RESEARCH_BATCH_SIZE` and every
behaviour of the outside world, `research_products` returns (without
raising) exactly one synthetic `TOO_MANY_ITEMS` result, and neither the
query builder nor the circuit breaker / API client is invoked. -/
theorem c5_too_many_items (items : List ProductResearchItem) (api : ApiOutcome)
    (h : MAX_RESEARCH_BATCH_SIZE < items.length) :
    researchProducts items api =
      .ok ([tooManyItemsResult items.length], ⟨false, false⟩) := by
  have hne : ¬ items = [] := by
    intro he
    rw [he] at h
    simp [MAX_RESEARCH_BATCH_SIZE] at h
  unfold researchProducts
  simp [hne, h]

/-- Witness for C5 at an 11-item batch. -/
theorem c5_too_many_items_witness :
    researchProducts (List.replicate 11 exItemA) (.raised "boom") =
      .ok ([tooManyItemsResult 11], ⟨false, false⟩) := by
  have h := c5_too_many_items (List.replicate 11 exItemA) (.raised "boom")
    (by simp [MAX_RESEARCH_BATCH_SIZE])
  simpa using h

/-! ## Claim C10 — empty batch is the only raising input -/

/-- C10: `research_products` raises exactly on the empty batch — the
`ValueError` carries the message from the source, is independent of the
environment (so no query is built and no outbound call happens), and
every nonempty batch yields a result list instead. -/
theorem c10_empty_batch_raises (items : List ProductResearchItem) (api : ApiOutcome) :
    ((∃ e, researchProducts items api = .error e) ↔ items = []) ∧
    (items = [] → researchProducts items api = .error "Items list cannot be empty") ∧
    (items ≠ [] → ∃ out, researchProducts items api = .ok out) := by
  by_cases hi : items = []
  · subst hi
    refine ⟨⟨fun _ => rfl, fun _ => ⟨_, rfl⟩⟩, fun _ => rfl, fun h => absurd rfl h⟩
  · have hok : ∃ out, researchProducts items api = .ok out := by
      unfold researchProducts
      by_cases hlen : MAX_RESEARCH_BATCH_SIZE < items.length
      · refine ⟨([tooManyItemsResult items.length], ⟨false, false⟩), ?_⟩
        simp [hi, hlen]
      · cases api with
        | ok resp =>
            refine ⟨(parseBatchResponse resp items, ⟨true, true⟩), ?_⟩
            simp [hi, hlen]
        | raised e =>
            refine ⟨(items.map (fun it => createErrorResult it ("Research failed: " ++ e)),
              ⟨true, true⟩), ?_⟩
            simp [hi, hlen]
    obtain ⟨out, hout⟩ := hok
    refine ⟨⟨?_, fun h => absurd h hi⟩, fun h => absurd h hi, fun _ => ⟨out, hout⟩⟩
    rintro ⟨e, he⟩
    rw [hout] at he
    cases he

/-- Witness for C10: the empty batch raises, a singleton batch does
not. -/
theorem c10_empty_batch_raises_witness :
    researchProducts [] (.raised "x") = .error "Items list cannot be empty" ∧
    researchProducts [exItemA] (.raised "x") ≠ .error "Items list cannot be empty" := by
  constructor
  · exact (c10_empty_batch_raises [] (.raised "x")).2.1 rfl
  · obtain ⟨out, hout⟩ := (c10_empty_batch_raises [exItemA] (.raised "x")).2.2 (by simp)
    rw [hout]
    intro h
    cases h

/-! ## Claim C2 — SUCCESS validation does not check the source count -/

/-- C2 counterexample: a parsed result with a positive rating and
review count but zero sources (and no citations to backfill from) is
marked `SUCCESS`, although it carries fewer than
`MIN_SOURCES_REQUIRED` sources — refuting the claimed "at least 3
sources" requirement. -/
theorem c2_success_without_sources_counterexample :
    (parseBatchResponse ⟨.arr [.obj exDataNoSources], []⟩ [exItemA]).map
        (fun r => (r.status, r.sources.length)) = [(.success, 0)] ∧
    (0 : Nat) < MIN_SOURCES_REQUIRED := by
  refine ⟨by decide, by decide⟩

/-- C2 amended: a parsed (non-error) result is `SUCCESS` exactly when
the element is not already flagged insufficient and its parsed reviews
carry a positive rating and a positive count — the source count plays
no part; otherwise it is `INSUFFICIENT_SOURCES` with the missing fields
taken from the element or defaulted to the required review fields.
Citation backfill tops sources up toward the minimum only as far as the
citations allow. -/
theorem c2_amended_success_condition (d : ItemData) (item : ProductResearchItem) :
    (((parseSingleResult d item).status = .success ∨
        (parseSingleResult d item).status = .insufficient_sources) ∧
      ((parseSingleResult d item).status = .success ↔
        d.status ≠ some STATUS_INSUFFICIENT_SOURCES ∧
        0 < (parseReviewsValue (d.reviews.getD {})).rating_avg ∧
        0 < (parseReviewsValue (d.reviews.getD {})).review_count) ∧
      ((parseSingleResult d item).status = .insufficient_sources →
        (parseSingleResult d item).missing_fields =
            d.missing_fields.getD REQUIRED_REVIEW_FIELDS ∨
        (parseSingleResult d item).missing_fields = REQUIRED_REVIEW_FIELDS)) ∧
    (∀ (cits : List String) (r : ProductResearchResult),
      (addCitations cits r).sources.length =
        if r.sources.length < MIN_SOURCES_REQUIRED then
          min MIN_SOURCES_REQUIRED (r.sources.length + cits.length)
        else r.sources.length) := by
  constructor
  · by_cases hst : d.status = some STATUS_INSUFFICIENT_SOURCES
    · simp [parseSingleResult, hst, markInsufficientSources]
    · by_cases hv : 0 < (parseReviewsValue (d.reviews.getD {})).rating_avg ∧
          0 < (parseReviewsValue (d.reviews.getD {})).review_count
      · simp [parseSingleResult, hst, validateAndSetStatus, hv, markSuccess]
      · simp [parseSingleResult, hst, validateAndSetStatus, hv, markInsufficientSources]
  · intro cits r
    unfold addCitations
    split
    · rename_i hlt
      simp only [if_pos hlt, List.length_append, List.length_take]
      omega
    · rename_i hge
      simp only [if_neg hge]

/-- Witness for C2's amended statement: the zero-source element with
healthy reviews parses to `SUCCESS`. -/
theorem c2_amended_success_condition_witness :
    (parseSingleResult exDataNoSources exItemA).status = .success :=
  (c2_amended_success_condition exDataNoSources exItemA).1.2.1.mpr
    ⟨by decide, by decide, by decide⟩

/-! ## Claim C8 — no rating-scale normalisation in the parser -/

/-- C8 counterexample: for the spec's worked example, a response
reporting `rating_avg = 90` is not divided by 20 — constructing
`ProductReviews` with a rating outside `[0, 5]` raises, the reviews
degrade to their defaults, and the result is `INSUFFICIENT_SOURCES`
with rating `0`, not `SUCCESS` with `4.5`. -/
theorem c8_no_normalisation_counterexample :
    (parseBatchResponse ⟨.arr [.obj exData90], []⟩ [exItemX]).map
        (fun r => (r.status, r.reviews.rating_avg)) =
      [(.insufficient_sources, 0)] ∧
    (ResearchStatus.insufficient_sources ≠ .success ∧ (0 : ℚ) ≠ 9/2) := by
  refine ⟨by decide, by decide, by norm_num⟩

/-- C8 amended: the ÷20 / ÷2 normalisation is an instruction to the
external API embedded in the prompt, not parser code.  On the worked
example the parser yields `SUCCESS` with rating 4.5 only when the
response already carries the normalised value; the 100-point value 90
trips the 0–5 validation and the reviews fall back to their defaults. -/
theorem c8_amended_normalisation_contract :
    (parseBatchResponse ⟨.arr [.obj exData45], []⟩ [exItemX]).map
        (fun r => (r.status, r.reviews.rating_avg, r.reviews.review_count,
          r.sources.length)) = [(.success, q45, 50, 3)] ∧
    q45 = 9/2 ∧
    (parseBatchResponse ⟨.arr [.obj exData90], []⟩ [exItemX]).map
        (fun r => r.reviews) = [({} : ProductReviews)] ∧
    parseReviewsValue { rating_avg := some 90, review_count := some 50 } =
      ({} : ProductReviews) := by
  refine ⟨by decide, ?_, by decide, by decide⟩
  rw [q45, Rat.mk'_eq_divInt, Rat.divInt_eq_div]
  norm_num

/-! ## Claim C9 — invalid job id and the per-IP cap -/

/-- C9 counterexample: an invalid-UUID connection attempt from a peer
already holding five connections is closed with the cap code 4008, not
4000 — the cap check runs before UUID validation. -/
theorem c9_cap_before_uuid_counterexample :
    websocketResearchUpdates
        { current_ip_connections := 5, job_id_is_valid_uuid := false } =
      (.closedWith 4008, ⟨false, false⟩) ∧ (4008 : Nat) ≠ 4000 := by
  refine ⟨rfl, by decide⟩

/-- C9 amended: an invalid-UUID attempt never triggers the job lookup
or registers the connection; it is closed with 4000 when the peer is
below the five-connection cap, and with 4008 (the cap code, checked
first) when it is not.  4000 is distinct from the not-found (4004),
cap (4008) and lookup-failure (4500) codes. -/
theorem c9_amended_invalid_uuid (req : WsRequest)
    (h : req.job_id_is_valid_uuid = false) :
    (websocketResearchUpdates req).2 = ⟨false, false⟩ ∧
    (req.current_ip_connections < 5 →
      websocketResearchUpdates req = (.closedWith 4000, ⟨false, false⟩)) ∧
    (5 ≤ req.current_ip_connections →
      websocketResearchUpdates req = (.closedWith 4008, ⟨false, false⟩)) ∧
    ((4000 : Nat) ≠ 4004 ∧ (4000 : Nat) ≠ 4008 ∧ (4000 : Nat) ≠ 4500) := by
  by_cases hc : 5 ≤ req.current_ip_connections
  · refine ⟨?_, ?_, ?_, by decide⟩
    · simp [websocketResearchUpdates, hc]
    · intro hlt
      omega
    · intro _
      simp [websocketResearchUpdates, hc]
  · refine ⟨?_, ?_, ?_, by decide⟩
    · simp [websocketResearchUpdates, hc, h]
    · intro _
      simp [websocketResearchUpdates, hc, h]
    · intro hge
      omega

/-- Witness for C9's amended statement at a peer below the cap. -/
theorem c9_amended_invalid_uuid_witness :
    websocketResearchUpdates
        { current_ip_connections := 0, job_id_is_valid_uuid := false } =
      (.closedWith 4000, ⟨false, false⟩) :=
  (c9_amended_invalid_uuid
    { current_ip_connections := 0, job_id_is_valid_uuid := false } rfl).2.1
    (by decide)

/-! ## Claim C7 — job cancellation semantics -/

/-- C7 counterexample: `ProductResearchJobManager.cancel_job` on a
PENDING job returns `False` and leaves it untouched (the claim says
cancellation succeeds from PENDING), and
`ResearchService.cancel_research_job` on a COMPLETED job raises
`ValueError` (the claim says it returns `False` without raising). -/
theorem c7_cancel_pending_counterexample :
    cancelJob (some { status := .pending }) 0 =
      (false, some { status := .pending }) ∧
    cancelResearchJob (some JobStatus.completed) =
      .valueError "cannot be cancelled" := by
  refine ⟨by decide, by decide⟩

/-- C7 amended: the manager's `cancel_job` succeeds exactly from
PROCESSING, moving the job to ERROR status (the enum has no CANCELLED)
with a `cancelled` metadata flag, completion timestamp and message; for
PENDING, terminal or missing jobs it returns `False` without raising
and leaves the job unchanged.  The service-layer
`cancel_research_job` accepts PENDING and PROCESSING and transitions to
CANCELLED, but raises `ValueError` on other statuses and returns
`False` only for a missing job. -/
theorem c7_amended_cancel_semantics (job : Option PRJob) (now : Nat) :
    ((cancelJob job now).1 = true ↔ ∃ j, job = some j ∧ j.status = .processing) ∧
    ((cancelJob job now).1 = false → (cancelJob job now).2 = job) ∧
    (∀ j, job = some j → j.status = .processing →
      (cancelJob job now).2 = some
        { j with status := .error,
                 metadata := metaSet j.metadata "cancelled" (.b true),
                 completed_at := some now,
                 error_message := some "Job was cancelled by user" }) ∧
    (∀ st : JobStatus, st ≠ .pending → st ≠ .processing →
      cancelResearchJob (some st) = .valueError "cannot be cancelled") ∧
    cancelResearchJob none = .returnedFalse := by
  refine ⟨?_, ?_, ?_, ?_, rfl⟩
  · cases job with
    | none => simp [cancelJob]
    | some j =>
        by_cases hj : j.status = .processing
        · simp [cancelJob, hj]
        · simp [cancelJob, hj]
  · cases job with
    | none => intro _; rfl
    | some j =>
        by_cases hj : j.status = .processing
        · simp [cancelJob, hj]
        · intro _
          simp [cancelJob, hj]
  · rintro j rfl hj
    simp [cancelJob, hj]
  · intro st h1 h2
    simp [cancelResearchJob, h1, h2]

/-- Witness for C7's amended statement: a PROCESSING job is
cancellable. -/
theorem c7_amended_cancel_semantics_witness :
    (cancelJob (some { status := .processing }) 3).1 = true :=
  (c7_amended_cancel_semantics (some { status := .processing }) 3).1.mpr
    ⟨{ status := .processing }, rfl, rfl⟩

/-! ## Claim C4 — a single failure in HALF_OPEN -/

/-- C4 counterexample: a reachable HALF_OPEN state in which one
recorded failure does **not** reopen the breaker.  `force_open` (public
operational control) leaves the failure counter at 0; after the
timeout, the next call runs in HALF_OPEN and its failure brings the
counter only to 1 < `failure_threshold`, so the breaker stays
HALF_OPEN. -/
theorem c4_half_open_failure_counterexample :
    (acall defaultBreakerConfig (forceOpen 0 initialBreakerState) 60
        (.err 0)).2.state = .halfOpen ∧
    CircuitState.halfOpen ≠ .opened := by
  refine ⟨by decide, by decide⟩

/-- C4 amended: a failure recorded while HALF_OPEN reopens the breaker
iff the incremented consecutive-failure counter reaches
`failure_threshold`; in the ordinary path (OPEN entered through
consecutive failures, counter already at the threshold) a single
failure therefore suffices, but not from every reachable HALF_OPEN
state. -/
theorem c4_amended_half_open_failure (cfg : CircuitBreakerConfig)
    (s : CircuitBreakerState) (now d : Nat) (h : s.state = .halfOpen) :
    (acall cfg s now (.err d)).2.state =
      if cfg.failure_threshold ≤ s.failure_count + 1 then .opened
      else .halfOpen := by
  simp only [acall, cleanupOldCalls, execWrapped, recordFailure]
  simp only [h]
  by_cases hf : cfg.failure_threshold ≤ s.failure_count + 1
  · simp [hf]
  · simp [hf]

/-- Witness for C4's amended statement: at a counter of 4 with the
default threshold 5, one HALF_OPEN failure reopens. -/
theorem c4_amended_half_open_failure_witness :
    (acall defaultBreakerConfig
        { state := .halfOpen, failure_count := 4 } 0 (.err 0)).2.state =
      .opened := by
  rw [c4_amended_half_open_failure defaultBreakerConfig
    { state := .halfOpen, failure_count := 4 } 0 0 rfl]
  decide

/-! ## Claim C6 — merge idempotence -/

/-- Overwriting the same key twice equals overwriting it once. -/
theorem metaSet_metaSet (m : Metadata) (k : String) (v w : MVal) :
    metaSet (metaSet m k v) k w = metaSet m k w := by
  induction m with
  | nil => simp [metaSet]
  | cons hd tl ih =>
      obtain ⟨k', v'⟩ := hd
      by_cases hk : k' = k
      · simp [metaSet, hk]
      · simp [metaSet, hk, ih]

/-- Setting one key does not affect lookups of another. -/
theorem metaLookup_metaSet_ne (m : Metadata) (k k' : String) (v : MVal)
    (h : k ≠ k') : metaLookup (metaSet m k v) k' = metaLookup m k' := by
  induction m with
  | nil => simp [metaSet, metaLookup, h]
  | cons hd tl ih =>
      obtain ⟨ek, ev⟩ := hd
      by_cases he : ek = k
      · subst he
        simp [metaSet, metaLookup, h]
      · by_cases he' : ek = k'
        · subst he'
          simp [metaSet, metaLookup, he]
        · simp [metaSet, metaLookup, he, he', ih]

/-- Closed form of `_merge_research_into_preview`: the let/if chain of
the source collapses to a single record update. -/
theorem merge_eq (p r : ProductResearchResult) :
    mergeResearchIntoPreview p r = { p with
      brand := r.brand, model_or_variant := r.model_or_variant,
      specs := r.specs, reviews := r.reviews,
      sources := p.sources ++ r.sources, status := r.status,
      captured_at := r.captured_at,
      metadata :=
        if (metaLookup p.metadata "coupang_info").isSome then
          metaSet p.metadata "research_completed" (.b true)
        else r.metadata,
      error_message :=
        if truthyStr r.error_message then r.error_message else p.error_message,
      missing_fields :=
        if r.missing_fields ≠ [] then r.missing_fields else p.missing_fields,
      suggested_queries :=
        if r.suggested_queries ≠ [] then r.suggested_queries
        else p.suggested_queries } := by
  unfold mergeResearchIntoPreview
  by_cases h1 : (metaLookup p.metadata "coupang_info").isSome <;>
    by_cases h2 : truthyStr r.error_message = true <;>
      by_cases h3 : r.missing_fields = [] <;>
        by_cases h4 : r.suggested_queries = [] <;>
          simp [h1, h2, h3, h4]

/-- C6 counterexample: merging the same research result twice appends
its sources twice — the preview ends with 7 sources instead of 4, so
the double merge differs from the single merge. -/
theorem c6_merge_not_idempotent_counterexample :
    mergeResearchIntoPreview (mergeResearchIntoPreview exPreview exResearch)
        exResearch ≠ mergeResearchIntoPreview exPreview exResearch ∧
    (mergeResearchIntoPreview exPreview exResearch).sources.length = 4 ∧
    (mergeResearchIntoPreview (mergeResearchIntoPreview exPreview exResearch)
        exResearch).sources.length = 7 := by
  refine ⟨by decide, by decide, by decide⟩

/-- C6 amended: the merge is an idempotent overwrite on every field
except `sources`, which it **appends**; merging twice coincides with
merging once precisely when the research result contributes no sources
(and no stray `coupang_info` metadata when the preview lacks its own —
then the `research_completed` flag would be added on the repeat). -/
theorem c6_amended_merge_idempotent (p r : ProductResearchResult)
    (hs : r.sources = [])
    (hm : (metaLookup p.metadata "coupang_info").isSome = true ∨
          metaLookup r.metadata "coupang_info" = none) :
    mergeResearchIntoPreview (mergeResearchIntoPreview p r) r =
      mergeResearchIntoPreview p r := by
  simp only [merge_eq, hs, List.append_nil]
  by_cases h1 : (metaLookup p.metadata "coupang_info").isSome = true
  · simp [h1, metaLookup_metaSet_ne, metaSet_metaSet]
    refine ⟨?_, ?_, ?_⟩ <;> intro hx <;> simp [hx]
  · have h2 : metaLookup r.metadata "coupang_info" = none := by
      rcases hm with hm | hm
      · exact absurd hm h1
      · exact hm
    simp [h1, h2]
    refine ⟨?_, ?_, ?_⟩ <;> intro hx <;> simp [hx]

/-- Witness for C6's amended statement: a source-free research result
merges idempotently. -/
theorem c6_amended_merge_idempotent_witness :
    mergeResearchIntoPreview
        (mergeResearchIntoPreview exPreview exResearchNoSources)
        exResearchNoSources =
      mergeResearchIntoPreview exPreview exResearchNoSources :=
  c6_amended_merge_idempotent exPreview exResearchNoSources (by decide)
    (Or.inl (by decide))

/-! ## Claim C1 — result-list length and positional alignment -/

/-- C1 counterexample: a valid two-item batch whose API response array
holds a single element yields one result, not two — the parser's loop
truncates long arrays but never pads short ones, refuting length
equality "regardless of how many elements the response array
contains". -/
theorem c1_short_response_counterexample :
    ((researchProducts [exItemA, exItemB]
        (.ok ⟨.arr [.obj exDataPlain], []⟩)).toOption.map
      (fun out => out.1.length)) = some 1 ∧
    [exItemA, exItemB].length = 2 := by
  refine ⟨by decide, by decide⟩

/-- C1 amended: for a valid batch, a raising API call still produces
one ERROR result per item (full length), while a successfully decoded
response array of `k` objects produces `min k n` results — positional
alignment holds on that prefix (result `i` is the parse of array
element `i` against input item `i`, plus citation backfill), surplus
array elements are dropped, and a short array yields a short result
list. -/
theorem c1_amended_length_alignment (items : List ProductResearchItem)
    (h1 : items ≠ []) (h2 : items.length ≤ MAX_RESEARCH_BATCH_SIZE) :
    (∀ e, (researchProducts items (.raised e)).toOption.map
      (fun out => out.1.length) = some items.length) ∧
    (∀ (resp : ResponseData) (elems : List ElemData),
      resp.content = .arr elems →
      (elems.take items.length).all ElemData.isObj = true →
      ∃ rs, researchProducts items (.ok resp) = .ok (rs, ⟨true, true⟩) ∧
        rs.length = min elems.length items.length ∧
        ∀ i (hi : i < elems.length) (hj : i < items.length) (hk : i < rs.length),
          rs[i] = addCitations resp.citations
            (parseSingleResult (elems[i]).getObj items[i])) := by
  have hlen : ¬ MAX_RESEARCH_BATCH_SIZE < items.length := by omega
  constructor
  · intro e
    unfold researchProducts
    simp [h1, hlen, Except.toOption]
  · intro resp elems hc hall
    obtain ⟨content, cits⟩ := resp
    simp only at hc
    subst hc
    refine ⟨(List.zipWith (fun e it => parseSingleResult e.getObj it) elems
      items).map (addCitations cits), ?_, ?_, ?_⟩
    · unfold researchProducts
      simp [h1, hlen, parseBatchResponse, hall]
    · simp [List.length_zipWith]
    · intro i hi hj hk
      simp [List.getElem_map, List.getElem_zipWith]

/-- Witness for C1's amended statement on a singleton batch with a
raising API call. -/
theorem c1_amended_length_alignment_witness :
    (researchProducts [exItemA] (.raised "x")).toOption.map
      (fun out => out.1.length) = some 1 := by
  have h := (c1_amended_length_alignment [exItemA] (by decide) (by decide)).1 "x"
  simpa using h

/-! ## Claim C3 — breaker lifecycle (helper lemmas) -/

/-- History cleanup touches only the call history. -/
@[simp] theorem cleanup_state (cfg : CircuitBreakerConfig) (now : Nat)
    (s : CircuitBreakerState) : (cleanupOldCalls cfg now s).state = s.state := rfl

@[simp] theorem cleanup_failure_count (cfg : CircuitBreakerConfig) (now : Nat)
    (s : CircuitBreakerState) :
    (cleanupOldCalls cfg now s).failure_count = s.failure_count := rfl

@[simp] theorem cleanup_success_count (cfg : CircuitBreakerConfig) (now : Nat)
    (s : CircuitBreakerState) :
    (cleanupOldCalls cfg now s).success_count = s.success_count := rfl

@[simp] theorem cleanup_last_failure (cfg : CircuitBreakerConfig) (now : Nat)
    (s : CircuitBreakerState) :
    (cleanupOldCalls cfg now s).last_failure_time = s.last_failure_time := rfl

/-- Cleanup of an empty history stays empty. -/
theorem cleanup_history_nil (cfg : CircuitBreakerConfig) (now : Nat)
    (s : CircuitBreakerState) (h : s.call_history = []) :
    (cleanupOldCalls cfg now s).call_history = [] := by
  simp [cleanupOldCalls, h]

/-- The error-rate check either leaves the state unchanged or — only
with at least five history entries — opens the circuit, rewriting the
failure counter but nothing else. -/
theorem checkErrorRate_cases (cfg : CircuitBreakerConfig) (now : Nat)
    (s : CircuitBreakerState) :
    checkErrorRate cfg now s = s ∨
    (5 ≤ s.call_history.length ∧ ∃ f,
      checkErrorRate cfg now s = { s with state := .opened, failure_count := f }) := by
  simp only [checkErrorRate]
  split
  · exact Or.inl rfl
  · rename_i hl
    split
    · exact Or.inl rfl
    · split
      · rename_i hcond
        exact Or.inr ⟨by omega, _, rfl⟩
      · exact Or.inl rfl

/-- Phase-1 invariant of C3: after `k` consecutive failing calls at
instant `t`, the breaker is CLOSED with counter `k` still below the
threshold, or OPEN with its last failure stamped `t`. -/
theorem failIter_invariant (cfg : CircuitBreakerConfig) (t : Nat)
    (hf : 1 ≤ cfg.failure_threshold) (ht : 1 ≤ cfg.timeout_seconds) (k : Nat) :
    ((failIter cfg t k).state = .closed ∧ (failIter cfg t k).failure_count = k ∧
      k < cfg.failure_threshold ∧
      (1 ≤ k → (failIter cfg t k).last_failure_time = t) ∧
      (k = 0 → (failIter cfg t k).call_history = [])) ∨
    ((failIter cfg t k).state = .opened ∧
      (failIter cfg t k).last_failure_time = t ∧ 1 ≤ k) := by
  induction k with
  | zero =>
      left
      exact ⟨rfl, rfl, hf, fun h => absurd h (by omega), fun _ => rfl⟩
  | succ n ih =>
      have hstep : failIter cfg t (n + 1) =
          (acall cfg (failIter cfg t n) t (.err 0)).2 := by
        unfold failIter
        rw [Function.iterate_succ_apply']
        rfl
      set s := failIter cfg t n with hs
      have hto : ¬ ((cfg.timeout_seconds : Int) ≤ (t : Int) - (t : Int)) := by omega
      have ht0 : cfg.timeout_seconds ≠ 0 := by omega
      rcases ih with ⟨hc, hfc, hlt, hlft, hhist⟩ | ⟨ho, hlft, hk⟩
      · -- CLOSED before the call
        rw [hstep]
        simp only [acall]
        rw [if_pos (show (cleanupOldCalls cfg t s).state = .closed by simp [hc])]
        rcases checkErrorRate_cases cfg t (cleanupOldCalls cfg t s) with hA | ⟨h5, f, hB⟩
        · rw [hA]
          by_cases hth : cfg.failure_threshold ≤ n + 1
          · refine Or.inr ⟨?_, ?_, by omega⟩ <;>
              simp [hc, hfc, hth, execWrapped, recordFailure]
          · refine Or.inl ⟨?_, ?_, by omega, fun _ => ?_,
              fun h0 => absurd h0 (by omega)⟩ <;>
              simp [hc, hfc, hth, execWrapped, recordFailure]
        · -- the rate check opened the circuit; five in-window samples
          -- imply at least one earlier recorded failure, so `n ≥ 1`.
          have hn1 : 1 ≤ n := by
            by_contra h0
            have hn0 : n = 0 := by omega
            have hnil := cleanup_history_nil cfg t s (hhist hn0)
            rw [hnil] at h5
            simp at h5
          have hlf2 : s.last_failure_time = t := hlft hn1
          rw [hB]
          refine Or.inr ⟨?_, ?_, by omega⟩ <;> simp [hlf2, hto, ht0]
      · -- already OPEN before the call: fail fast, state untouched
        rw [hstep]
        simp only [acall]
        refine Or.inr ⟨?_, ?_, by omega⟩ <;> simp [ho, hlft, hto, ht0]

/-- While OPEN and before the timeout has elapsed, every call is
rejected — independently of the wrapped operation, which is never
invoked — and the breaker stays OPEN. -/
theorem open_rejects (cfg : CircuitBreakerConfig) (s : CircuitBreakerState)
    (t tn : Nat) (op : OpBehavior) (ho : s.state = .opened)
    (hlft : s.last_failure_time = t) (hb : tn < t + cfg.timeout_seconds) :
    (acall cfg s tn op).1.isRejected = true ∧
    (acall cfg s tn op).2.state = .opened ∧
    (∀ op2, acall cfg s tn op = acall cfg s tn op2) := by
  have hc : ¬ ((cfg.timeout_seconds : Int) ≤ (tn : Int) - (t : Int)) := by
    omega
  refine ⟨?_, ?_, ?_⟩
  · simp [acall, ho, hlft, hc, CallResult.isRejected]
  · simp [acall, ho, hlft, hc]
  · intro op2
    simp [acall, ho, hlft, hc]

/-- Once the timeout has elapsed, an OPEN breaker lets the next call
through: the operation runs (HALF_OPEN), and a fast success leaves the
breaker HALF_OPEN with one counted success (or CLOSED if one success
already meets the threshold). -/
theorem open_timeout_step (cfg : CircuitBreakerConfig) (s : CircuitBreakerState)
    (t t2 d : Nat) (ho : s.state = .opened) (hlft : s.last_failure_time = t)
    (h2 : t + cfg.timeout_seconds ≤ t2) (hd : d ≤ cfg.slow_call_threshold_ms) :
    (acall cfg s t2 (.ok d)).1 = .returned ∧
    (acall cfg s t2 (.ok d)).2.success_count = 1 ∧
    (acall cfg s t2 (.ok d)).2.state =
      (if cfg.success_threshold ≤ 1 then .closed else .halfOpen) := by
  have hc : (cfg.timeout_seconds : Int) ≤ (t2 : Int) - (t : Int) := by
    omega
  have hslow : ¬ cfg.slow_call_threshold_ms < d := by omega
  refine ⟨?_, ?_, ?_⟩
  · simp [acall, ho, hlft, hc, execWrapped, hslow]
  · simp [acall, ho, hlft, hc, execWrapped, hslow, recordSuccess]
    by_cases hth : cfg.success_threshold ≤ 1 <;> simp [hth]
  · simp [acall, ho, hlft, hc, execWrapped, hslow, recordSuccess]
    by_cases hth : cfg.success_threshold ≤ 1 <;> simp [hth]

/-- A fast success while HALF_OPEN returns normally, counts one more
consecutive success, and closes the breaker exactly when the success
threshold is met. -/
theorem half_open_success_step (cfg : CircuitBreakerConfig)
    (s : CircuitBreakerState) (t2 d : Nat) (hh : s.state = .halfOpen)
    (hd : d ≤ cfg.slow_call_threshold_ms) :
    (acall cfg s t2 (.ok d)).1 = .returned ∧
    (acall cfg s t2 (.ok d)).2.success_count = s.success_count + 1 ∧
    (acall cfg s t2 (.ok d)).2.state =
      (if cfg.success_threshold ≤ s.success_count + 1 then .closed
       else .halfOpen) := by
  have hslow : ¬ cfg.slow_call_threshold_ms < d := by omega
  refine ⟨?_, ?_, ?_⟩
  · simp [acall, hh, execWrapped, hslow]
  · simp [acall, hh, execWrapped, hslow, recordSuccess]
    by_cases hth : cfg.success_threshold ≤ s.success_count + 1 <;> simp [hth]
  · simp [acall, hh, execWrapped, hslow, recordSuccess]
    by_cases hth : cfg.success_threshold ≤ s.success_count + 1 <;> simp [hth]

/-- Running exactly the missing number of fast successes from a
HALF_OPEN state closes the breaker. -/
theorem half_open_success_run (cfg : CircuitBreakerConfig) (t2 d : Nat)
    (hd : d ≤ cfg.slow_call_threshold_ms) :
    ∀ (j : Nat) (s : CircuitBreakerState), 1 ≤ j → s.state = .halfOpen →
      s.success_count + j = cfg.success_threshold →
      ((acallState cfg t2 (.ok d))^[j] s).state = .closed := by
  intro j
  induction j with
  | zero => intro s h0; omega
  | succ n ih =>
      intro s _ hh hsum
      rw [Function.iterate_succ_apply]
      obtain ⟨-, hsc, hst⟩ := half_open_success_step cfg s t2 d hh hd
      by_cases hn : n = 0
      · subst hn
        simp only [Function.iterate_zero, id_eq]
        rw [acallState, hst, if_pos (by omega)]
      · have hnot : ¬ cfg.success_threshold ≤ s.success_count + 1 := by omega
        apply ih (acallState cfg t2 (.ok d) s) (by omega)
        · rw [acallState, hst, if_neg hnot]
        · rw [acallState, hsc]
          omega

/-- C3: starting CLOSED, `failure_threshold` consecutive recorded
failures (at instant `t`) leave the breaker OPEN; before
`t + timeout_seconds` every call fails fast without invoking the
wrapped operation (the outcome does not even depend on it); once the
timeout has elapsed the next call is executed in HALF_OPEN; and
`success_threshold` consecutive fast successes return the breaker to
CLOSED. -/
theorem c3_breaker_lifecycle (cfg : CircuitBreakerConfig) (t tr t2 d : Nat)
    (hf : 1 ≤ cfg.failure_threshold) (hs : 1 ≤ cfg.success_threshold)
    (ht : 1 ≤ cfg.timeout_seconds) (hb1 : tr < t + cfg.timeout_seconds)
    (hb2 : t + cfg.timeout_seconds ≤ t2) (hd : d ≤ cfg.slow_call_threshold_ms) :
    (failIter cfg t cfg.failure_threshold).state = .opened ∧
    (∀ op, (acall cfg (failIter cfg t cfg.failure_threshold) tr op).1.isRejected
        = true ∧
      (acall cfg (failIter cfg t cfg.failure_threshold) tr op).2.state = .opened ∧
      (∀ op2, acall cfg (failIter cfg t cfg.failure_threshold) tr op =
        acall cfg (failIter cfg t cfg.failure_threshold) tr op2)) ∧
    (acall cfg (failIter cfg t cfg.failure_threshold) t2 (.ok d)).1 = .returned ∧
    (2 ≤ cfg.success_threshold →
      (acall cfg (failIter cfg t cfg.failure_threshold) t2 (.ok d)).2.state =
        .halfOpen) ∧
    ((acallState cfg t2 (.ok d))^[cfg.success_threshold]
      (failIter cfg t cfg.failure_threshold)).state = .closed := by
  have hInv := failIter_invariant cfg t hf ht cfg.failure_threshold
  have hopen : (failIter cfg t cfg.failure_threshold).state = .opened ∧
      (failIter cfg t cfg.failure_threshold).last_failure_time = t := by
    rcases hInv with ⟨-, -, hlt, -, -⟩ | ⟨h1, h2, -⟩
    · omega
    · exact ⟨h1, h2⟩
  obtain ⟨ho, hlft⟩ := hopen
  obtain ⟨hret, hsc1, hst1⟩ := open_timeout_step cfg _ t t2 d ho hlft hb2 hd
  refine ⟨ho, fun op => open_rejects cfg _ t tr op ho hlft hb1, hret, ?_, ?_⟩
  · intro h2s
    rw [hst1, if_neg (by omega)]
  · have hiter : ((acallState cfg t2 (.ok d))^[cfg.success_threshold]
        (failIter cfg t cfg.failure_threshold)) =
        ((acallState cfg t2 (.ok d))^[cfg.success_threshold - 1]
          (acallState cfg t2 (.ok d) (failIter cfg t cfg.failure_threshold))) := by
      conv_lhs =>
        rw [show cfg.success_threshold = (cfg.success_threshold - 1) + 1 by omega]
      rw [Function.iterate_succ_apply]
    rw [hiter]
    by_cases h1 : cfg.success_threshold = 1
    · rw [h1]
      simp only [Nat.sub_self, Function.iterate_zero, id_eq]
      rw [acallState, hst1, if_pos (by omega)]
    · apply half_open_success_run cfg t2 d hd (cfg.success_threshold - 1) _ (by omega)
      · rw [acallState, hst1, if_neg (by omega)]
      · rw [acallState, hsc1]
        omega

/-- Witness for C3 at the default configuration (thresholds 5/3,
timeout 60s): failures at instant 0, a rejected call at 59, the probe
call at 60, three successes closing the breaker. -/
theorem c3_breaker_lifecycle_witness :
    (failIter defaultBreakerConfig 0 5).state = .opened ∧
    (acall defaultBreakerConfig (failIter defaultBreakerConfig 0 5) 59
      (.err 0)).1.isRejected = true ∧
    (acall defaultBreakerConfig (failIter defaultBreakerConfig 0 5) 60
      (.ok 0)).2.state = .halfOpen ∧
    ((acallState defaultBreakerConfig 60 (.ok 0))^[3]
      (failIter defaultBreakerConfig 0 5)).state = .closed := by
  have h := c3_breaker_lifecycle defaultBreakerConfig 0 59 60 0 (by decide)
    (by decide) (by decide) (by decide) (by decide) (by decide)
  exact ⟨h.1, (h.2.1 (.err 0)).1, h.2.2.2.1 (by decide), h.2.2.2.2⟩

end CP9
